import Mathlib

set_option linter.unusedSectionVars false
set_option linter.unusedVariables false

/-!
Shallow embedding of the posenet-pointer pose-to-pointer pipeline
(src/src/methods/calculations.js, src/src/methods/setup.js,
src/src/posenet-pointer.js).

JavaScript numbers are modelled as elements of a linear ordered field `K`
(instantiated at `ℚ` for concrete evaluations), with `Option K` for values
that may be non-finite: `none` stands for a JS `NaN` or `±Infinity`
produced by a division with zero denominator, and propagates through
arithmetic the way NaN does.  `Math.PI` is passed around as an explicit
constant `mathPi`.  Property accesses that throw a `TypeError` in JS
(reading `.position` of a missing keypoint, setting `.z` on an absent
`pointedAt`) are modelled with `Except Unit`.
-/

namespace PosenetPointer

variable {K : Type} [LinearOrderedField K]

/-- JS division `a / b`: `none` when the denominator is zero (JS yields
`NaN` or `±Infinity` there), otherwise the exact quotient. -/
def jsDiv (a b : K) : Option K := if b = 0 then none else some (a / b)

/-- JS addition lifted to possibly-non-finite values: `NaN` absorbs. -/
def jsAdd (a b : Option K) : Option K := Option.map₂ (· + ·) a b

/-- A keypoint position `{x, y}` as produced by PoseNet. -/
structure Position (K : Type) where
  x : K
  y : K
deriving DecidableEq

/-- A PoseNet keypoint: a position and a confidence score. -/
structure Keypoint (K : Type) where
  position : Position K
  score : K
deriving DecidableEq

/-- The derived `pointedAt` record.  `calculateXY` assigns `{x, y}` (without
a `z` property); `calculateZ` later sets `z`.  The outer `Option` on `z`
records whether the property has been assigned at all. -/
structure PointedAt (K : Type) where
  x : Option K
  y : Option K
  z : Option (Option K) := none
deriving DecidableEq

/-- The derived `angles` record assigned by `calculateXY`. -/
structure Angles (K : Type) where
  yaw : Option K
  pitch : Option K
deriving DecidableEq

/-- A pose: the keypoint array plus the derived fields, which are absent
(`none`) until the corresponding calculation has run. -/
structure Pose (K : Type) where
  keypoints : List (Keypoint K)
  pointedAt : Option (PointedAt K) := none
  angles : Option (Angles K) := none
deriving DecidableEq

/-- `pose.keypoints[i]` followed by a property access: in JS, indexing past
the end yields `undefined` and the subsequent `.position`/`.score` access
throws a `TypeError`, modelled as `Except.error ()`. -/
def getKp (pose : Pose K) (i : ℕ) : Except Unit (Keypoint K) :=
  match pose.keypoints.get? i with
  | some kp => Except.ok kp
  | none => Except.error ()

/-- The `posenet` sub-options consumed by the calculations. -/
structure PosenetOptions (K : Type) where
  minPartConfidence : K
deriving DecidableEq

/-- The options consumed by the calculations. -/
structure Options (K : Type) where
  poseStackSize : ℕ
  posenet : PosenetOptions K
deriving DecidableEq

/-- The defaults installed by `configure` (setup.js): `poseStackSize: 8`,
`posenet.minPartConfidence: 0.5`. -/
def configureDefaults : Options K :=
  { poseStackSize := 8, posenet := { minPartConfidence := 1 / 2 } }

/-- The numeric body of `calculateHeadYaw` (calculations.js), as a function
of the three x coordinates it reads: the two nose-to-eye x distances, the
branch on their comparison setting `distanceRatio` and `sideLookingAt`, and
the final scaling `(distanceRatio * 90 * sideLookingAt * Math.PI) / 180`. -/
def headYawNum (mathPi noseX eye1x eye2x : K) : Option K :=
  let left := |eye1x - noseX|
  let right := |eye2x - noseX|
  let branch : Option K × K :=
    if right < left then ((jsDiv right left).map fun q => 1 - q, 1)
    else ((jsDiv left right).map fun q => 1 - q, -1)
  branch.1.map fun r => r * 90 * branch.2 * mathPi / 180

/-- `calculateHeadYaw` (calculations.js).  Reads the x coordinates of the
nose (keypoint 0) and the two eyes (keypoints 1, 2); compares the two
nose-to-eye x distances and turns their ratio into a signed angle. -/
def calculateHeadYaw (mathPi : K) (pose : Pose K) : Except Unit (Option K) := do
  let points0 ← getKp pose 0
  let points1 ← getKp pose 1
  let points2 ← getKp pose 2
  pure (headYawNum mathPi points0.position.x points1.position.x
    points2.position.x)

/-- The ear-y accumulator of `calculateHeadPitch`: the sum of the y
positions of the ear keypoints whose score meets `minPartConfidence`. -/
def earYSum (minC : K) (points3 points4 : Keypoint K) : K :=
  (if minC ≤ points3.score then points3.position.y else 0) +
    (if minC ≤ points4.score then points4.position.y else 0)

/-- The ear counter of `calculateHeadPitch`: how many ear keypoints meet
`minPartConfidence`. -/
def earsFound (minC : K) (points3 points4 : Keypoint K) : ℕ :=
  (if minC ≤ points3.score then 1 else 0) +
    (if minC ≤ points4.score then 1 else 0)

/-- The numeric body of `calculateHeadPitch` (calculations.js):
`yEarAverage = yEarAverage / numEarsFound` (a JS `0/0 = NaN` when no ear
qualifies), `eyeDistance = points[1].x - points[2].x` (signed),
`distanceRatio = (points[0].y - yEarAverage) / eyeDistance`, and the final
scaling `(90 * distanceRatio * Math.PI) / 180`. -/
def headPitchNum (minC mathPi : K) (points3 points4 : Keypoint K)
    (noseY eye1x eye2x : K) : Option K :=
  let yEarAverage := jsDiv (earYSum minC points3 points4)
    ((earsFound minC points3 points4 : ℕ) : K)
  let eyeDistance := eye1x - eye2x
  let distanceRatio := yEarAverage.bind fun a => jsDiv (noseY - a) eyeDistance
  distanceRatio.map fun r => 90 * r * mathPi / 180

/-- `calculateHeadPitch` (calculations.js).  Averages the qualifying ear
y positions, divides the nose-to-ear-average vertical distance by the
signed eye x span, and scales into radians. -/
def calculateHeadPitch (opts : Options K) (mathPi : K) (pose : Pose K) :
    Except Unit (Option K) := do
  let points0 ← getKp pose 0
  let points1 ← getKp pose 1
  let points2 ← getKp pose 2
  let points3 ← getKp pose 3
  let points4 ← getKp pose 4
  pure (headPitchNum opts.posenet.minPartConfidence mathPi points3 points4
    points0.position.y points1.position.x points2.position.x)

/-- One smoothed `{x, y}` sample: either coordinate may be non-finite. -/
abbrev OptPoint (K : Type) := Option K × Option K

/-- The stack update in `calculateXY` (calculations.js):
`poseStack.push({x, y}); if (poseStack.length > poseStackSize) poseStack.shift()`.
Polymorphic in the element type, as the JS array is untyped. -/
def pushPose (poseStackSize : ℕ) (stack : List α) (p : α) : List α :=
  let pushed := stack ++ [p]
  if poseStackSize < pushed.length then pushed.tail else pushed

/-- `averagePoseStack` (calculations.js): fold the held points with `+=`
on each coordinate, then divide each sum by the stack length. -/
def averagePoseStack (stack : List (OptPoint K)) : OptPoint K :=
  let sums := stack.foldl
    (fun acc p => (jsAdd acc.1 p.1, jsAdd acc.2 p.2)) (some 0, some 0)
  (sums.1.bind fun a => jsDiv a ((stack.length : ℕ) : K),
    sums.2.bind fun b => jsDiv b ((stack.length : ℕ) : K))

/-- The ambient browser dimensions read by `calculateXY`:
`window.outerWidth`/`outerHeight` (the viewport) and
`this.canvas.width`/`height` (the capture surface). -/
structure Env (K : Type) where
  outerWidth : K
  outerHeight : K
  canvasWidth : K
  canvasHeight : K
deriving DecidableEq

/-- The numeric body of the pre-smoothing part of `calculateXY`
(calculations.js): the capture-to-viewport ratios, the mirrored raw
`x = -noseX * ratio.width + outerWidth` and raw `y = noseY * ratio.height`,
then the rotation shifts `x += yaw * outerWidth / 2` and
`y += pitch * outerHeight / 2`. -/
def xyRawNum (env : Env K) (noseX noseY : K) (yaw pitch : Option K) :
    Option K × Option K :=
  let ratioWidth := jsDiv env.outerWidth env.canvasWidth
  let ratioHeight := jsDiv env.outerHeight env.canvasHeight
  let x0 := ratioWidth.map fun w => -noseX * w + env.outerWidth
  let y0 := ratioHeight.map fun h => noseY * h
  let x1 := Option.map₂ (fun a b => a + b * env.outerWidth / 2) x0 yaw
  let y1 := Option.map₂ (fun a b => a + b * env.outerHeight / 2) y0 pitch
  (x1, y1)

/-- The per-pose body of `calculateXY` up to (and including) the rotation
shift: the pre-smoothing pointer coordinate, together with the yaw and
pitch it used. -/
def calculateXYRaw (env : Env K) (opts : Options K) (mathPi : K)
    (pose : Pose K) :
    Except Unit (Option K × Option K × Option K × Option K) := do
  let nose ← getKp pose 0
  let yaw ← calculateHeadYaw mathPi pose
  let pitch ← calculateHeadPitch opts mathPi pose
  let xy := xyRawNum env nose.position.x nose.position.y yaw pitch
  pure (xy.1, xy.2, yaw, pitch)

/-- The rest of the per-pose body of `calculateXY`: push the shifted point
onto the track's stack, average, and assign `pointedAt`/`angles`.  Returns
the enriched pose and the updated stack. -/
def calculateXYPose (env : Env K) (opts : Options K) (mathPi : K)
    (stack : List (OptPoint K)) (pose : Pose K) :
    Except Unit (Pose K × List (OptPoint K)) := do
  let (x1, y1, yaw, pitch) ← calculateXYRaw env opts mathPi pose
  let stack1 := pushPose opts.poseStackSize stack (x1, y1)
  let averages := averagePoseStack stack1
  pure ({ pose with
            pointedAt := some { x := averages.1, y := averages.2 },
            angles := some { yaw := yaw, pitch := pitch } },
        stack1)

/-- The `this.poses.forEach((pose, index) => ...)` loop of `calculateXY`:
poses are processed in array order against the per-index poseStacks; a thrown
`TypeError` propagates out of `forEach`, leaving the current pose and all
later poses untouched. -/
def calculateXYList (env : Env K) (opts : Options K) (mathPi : K) :
    ℕ → (ℕ → List (OptPoint K)) → List (Pose K) →
      List (Pose K) × (ℕ → List (OptPoint K))
  | _, poseStacks, [] => ([], poseStacks)
  | index, poseStacks, pose :: rest =>
    match calculateXYPose env opts mathPi (poseStacks index) pose with
    | Except.error _ => (pose :: rest, poseStacks)
    | Except.ok (pose1, stack1) =>
      let next := calculateXYList env opts mathPi (index + 1)
        (fun j => if j = index then stack1 else poseStacks j) rest
      (pose1 :: next.1, next.2)

/-- The triangle area computed inline by `calculateZ` (calculations.js):
`0.5 * |x0 y1 + x1 y2 + x2 y0 - x1 y0 - x2 y1 - x0 y2|`. -/
def shoelaceArea (nose eyeL eyeR : Position K) : K :=
  (1 / 2) *
    |nose.x * eyeL.y + eyeL.x * eyeR.y + eyeR.x * nose.y -
      eyeL.x * nose.y - eyeR.x * eyeL.y - nose.x * eyeR.y|

/-- The per-pose body of `calculateZ` (calculations.js): divide the cached
window area by the facial-triangle area and store it as `pointedAt.z`.
Setting `.z` on an absent `pointedAt` throws in JS. -/
def calculateZPose (windowArea : K) (pose : Pose K) : Except Unit (Pose K) := do
  let nose ← getKp pose 0
  let eyeL ← getKp pose 1
  let eyeR ← getKp pose 2
  let area := shoelaceArea nose.position eyeL.position eyeR.position
  let distance := jsDiv windowArea area
  match pose.pointedAt with
  | none => Except.error ()
  | some pa =>
    pure { pose with pointedAt := some { pa with z := some distance } }

/-- The cache installed by `configure` (setup.js):
`this.cache = { window: { area: 0 } }`. -/
structure WindowCache (K : Type) where
  area : K
deriving DecidableEq

/-- `configure` initialises the cached window area to `0`. -/
def configureCache : WindowCache K := { area := 0 }

/-- `setupFeed` (setup.js) assigns
`this.cache.window.area = window.outerWidth * window.outerHeight`. -/
def setupFeedArea (env : Env K) : K := env.outerWidth * env.outerHeight

/-- A consumer-facing dispatch performed during one frame: either the
`posenetPointerUpdated` event (from `emitEvents`) or one plugin callback
(from `runPlugins`). -/
inductive Dispatch where
  | event : Dispatch
  | pluginCall : String → Dispatch
deriving DecidableEq

/-- `emitEvents` (posenet-pointer.js) dispatches the event once. -/
def emitEventsTrace : List Dispatch := [Dispatch.event]

/-- `runCalculations` (calculations.js): `calculateXY` and `calculateZ`
dispatch nothing, then `this.emitEvents()` runs. -/
def runCalculationsTrace : List Dispatch := emitEventsTrace

/-- `runPlugins` (posenet-pointer.js): every registered plugin callback is
invoked once, in registry order. -/
def runPluginsTrace (plugins : List String) : List Dispatch :=
  plugins.map Dispatch.pluginCall

/-- The dispatches of one `trackPosesLoop` iteration
(posenet-pointer.js): when poses are present it runs `runCalculations()`,
then `emitEvents()`, then `runPlugins()`. -/
def trackPosesLoopDispatches (posesPresent : Bool) (plugins : List String) :
    List Dispatch :=
  if posesPresent then
    runCalculationsTrace ++ emitEventsTrace ++ runPluginsTrace plugins
  else []

/-- A stand-in rational for `Math.PI` in concrete evaluations; the pipeline
treats the constant symbolically, so any value works. -/
def piRat : ℚ := 355 / 113

/-- A concrete pose for evaluating `calculateHeadYaw`: nose at x = 0,
left eye at x = -2, right eye at x = 1, with assorted scores. -/
def yawPose : Pose ℚ :=
  { keypoints :=
      [{ position := { x := 0, y := 0 }, score := 9 / 10 },
       { position := { x := -2, y := 5 }, score := 1 / 10 },
       { position := { x := 1, y := 7 }, score := 0 }] }

/-- A concrete pose for evaluating `calculateHeadPitch`: only the left ear
meets the default confidence threshold. -/
def pitchPose : Pose ℚ :=
  { keypoints :=
      [{ position := { x := 2, y := 3 }, score := 1 },
       { position := { x := 5, y := 3 }, score := 1 },
       { position := { x := 1, y := 3 }, score := 1 },
       { position := { x := 6, y := 1 }, score := 3 / 4 },
       { position := { x := 0, y := 2 }, score := 1 / 4 }] }

/-- A concrete pose for evaluating `calculateHeadPitch` when no ear meets
the default confidence threshold. -/
def lowEarPose : Pose ℚ :=
  { keypoints :=
      [{ position := { x := 2, y := 3 }, score := 1 },
       { position := { x := 5, y := 3 }, score := 1 },
       { position := { x := 1, y := 3 }, score := 1 },
       { position := { x := 6, y := 1 }, score := 1 / 4 },
       { position := { x := 0, y := 2 }, score := 0 }] }

/-- A concrete pose for evaluating `calculateZPose`: the facial triangle
has area 6 and `calculateXY` has already assigned `pointedAt`. -/
def zPose : Pose ℚ :=
  { keypoints :=
      [{ position := { x := 0, y := 0 }, score := 1 },
       { position := { x := 4, y := 0 }, score := 1 },
       { position := { x := 0, y := 3 }, score := 1 }],
    pointedAt := some { x := some 1, y := some 2 } }

/-- The browser dimensions of the spec's end-to-end scenario: viewport
1000 by 800, capture surface 600 by 500. -/
def envDemo : Env ℚ :=
  { outerWidth := 1000, outerHeight := 800,
    canvasWidth := 600, canvasHeight := 500 }

/-- The pose of the spec's end-to-end scenario: nose at the capture centre,
eyes and ears symmetric, all ears confident. -/
def centredPose : Pose ℚ :=
  { keypoints :=
      [{ position := { x := 300, y := 250 }, score := 9 / 10 },
       { position := { x := 250, y := 250 }, score := 1 },
       { position := { x := 350, y := 250 }, score := 1 },
       { position := { x := 200, y := 250 }, score := 1 },
       { position := { x := 400, y := 250 }, score := 1 }] }

/-- A malformed pose: the keypoints array is empty, so every keypoint
access throws. -/
def badPose : Pose ℚ := { keypoints := [] }

theorem ok_bind {ε α β : Type} (a : α) (f : α → Except ε β) :
    (Except.ok a >>= f) = f a := rfl

theorem error_bind {ε α β : Type} (e : ε) (f : α → Except ε β) :
    ((Except.error e : Except ε α) >>= f) = Except.error e := rfl

theorem pure_eq_ok {ε α : Type} (a : α) :
    (pure a : Except ε α) = Except.ok a := rfl

theorem getKp_eq_ok (pose : Pose K) (i : ℕ) (kp : Keypoint K)
    (h : pose.keypoints.get? i = some kp) : getKp pose i = Except.ok kp := by
  unfold getKp
  rw [h]

theorem getKp_eq_error (pose : Pose K) (i : ℕ)
    (h : pose.keypoints.get? i = none) : getKp pose i = Except.error () := by
  unfold getKp
  rw [h]

theorem calculateHeadYaw_eval (mathPi : K) (pose : Pose K)
    (n l r : Keypoint K)
    (h0 : pose.keypoints.get? 0 = some n)
    (h1 : pose.keypoints.get? 1 = some l)
    (h2 : pose.keypoints.get? 2 = some r) :
    calculateHeadYaw mathPi pose =
      Except.ok (headYawNum mathPi n.position.x l.position.x r.position.x) := by
  simp [calculateHeadYaw, getKp_eq_ok pose 0 n h0, getKp_eq_ok pose 1 l h1,
    getKp_eq_ok pose 2 r h2, ok_bind, pure_eq_ok]

theorem calculateHeadPitch_eval (opts : Options K) (mathPi : K) (pose : Pose K)
    (n l r e3 e4 : Keypoint K)
    (h0 : pose.keypoints.get? 0 = some n)
    (h1 : pose.keypoints.get? 1 = some l)
    (h2 : pose.keypoints.get? 2 = some r)
    (h3 : pose.keypoints.get? 3 = some e3)
    (h4 : pose.keypoints.get? 4 = some e4) :
    calculateHeadPitch opts mathPi pose =
      Except.ok (headPitchNum opts.posenet.minPartConfidence mathPi e3 e4
        n.position.y l.position.x r.position.x) := by
  simp [calculateHeadPitch, getKp_eq_ok pose 0 n h0, getKp_eq_ok pose 1 l h1,
    getKp_eq_ok pose 2 r h2, getKp_eq_ok pose 3 e3 h3, getKp_eq_ok pose 4 e4 h4,
    ok_bind, pure_eq_ok]

theorem headYawNum_formula (mathPi nx lx rx : K)
    (hmax : max |lx - nx| |rx - nx| ≠ 0) :
    headYawNum mathPi nx lx rx =
      some ((1 - min |lx - nx| |rx - nx| / max |lx - nx| |rx - nx|) *
        (mathPi / 2) * (if |rx - nx| < |lx - nx| then 1 else -1)) := by
  unfold headYawNum
  by_cases h : |rx - nx| < |lx - nx|
  · have hl : |lx - nx| ≠ 0 := (lt_of_le_of_lt (abs_nonneg _) h).ne'
    have hmin : min |lx - nx| |rx - nx| = |rx - nx| := min_eq_right h.le
    have hmx : max |lx - nx| |rx - nx| = |lx - nx| := max_eq_left h.le
    simp only [if_pos h, jsDiv, if_neg hl, Option.map_some', hmin, hmx]
    exact congrArg some (by ring)
  · have hle : |lx - nx| ≤ |rx - nx| := not_lt.mp h
    have hr : |rx - nx| ≠ 0 := by
      intro h0
      exact hmax (by rw [max_eq_right hle, h0])
    have hmin : min |lx - nx| |rx - nx| = |lx - nx| := min_eq_left hle
    have hmx : max |lx - nx| |rx - nx| = |rx - nx| := max_eq_right hle
    simp only [if_neg h, jsDiv, if_neg hr, Option.map_some', hmin, hmx]
    exact congrArg some (by ring)

/-- C1: For every pose whose nose, left-eye and right-eye keypoints have
finite x coordinates (and whose nose-to-eye distances are not both zero,
where JS would produce `NaN`), `calculateHeadYaw` returns
`(1 - min(dL,dR)/max(dL,dR)) * (π/2) * sign` with `sign = +1` when
`dL > dR` and `-1` otherwise; when `dL = dR` the result is `0`; and the
result depends only on the three x coordinates, never on scores. -/
theorem yaw_formula_of_nondegenerate (mathPi : K) (pose : Pose K)
    (n l r : Keypoint K)
    (h0 : pose.keypoints.get? 0 = some n)
    (h1 : pose.keypoints.get? 1 = some l)
    (h2 : pose.keypoints.get? 2 = some r)
    (hmax : max |l.position.x - n.position.x| |r.position.x - n.position.x| ≠ 0) :
    calculateHeadYaw mathPi pose =
      Except.ok (some
        ((1 - min |l.position.x - n.position.x| |r.position.x - n.position.x| /
            max |l.position.x - n.position.x| |r.position.x - n.position.x|) *
          (mathPi / 2) *
          (if |r.position.x - n.position.x| < |l.position.x - n.position.x|
            then 1 else -1)))
    ∧ (|l.position.x - n.position.x| = |r.position.x - n.position.x| →
        calculateHeadYaw mathPi pose = Except.ok (some 0))
    ∧ (∀ (pose' : Pose K) (n' l' r' : Keypoint K),
        pose'.keypoints.get? 0 = some n' →
        pose'.keypoints.get? 1 = some l' →
        pose'.keypoints.get? 2 = some r' →
        n'.position.x = n.position.x →
        l'.position.x = l.position.x →
        r'.position.x = r.position.x →
        calculateHeadYaw mathPi pose' = calculateHeadYaw mathPi pose) := by
  refine ⟨?_, ?_, ?_⟩
  · rw [calculateHeadYaw_eval mathPi pose n l r h0 h1 h2]
    rw [headYawNum_formula mathPi n.position.x l.position.x r.position.x hmax]
  · intro heq
    rw [calculateHeadYaw_eval mathPi pose n l r h0 h1 h2]
    rw [headYawNum_formula mathPi n.position.x l.position.x r.position.x hmax]
    rw [heq]
    have hr : |r.position.x - n.position.x| ≠ 0 := by
      intro h0'
      exact hmax (by rw [heq, h0', max_self])
    rw [min_self, max_self, div_self hr]
    exact congrArg Except.ok (congrArg some (by ring))
  · intro pose' n' l' r' h0' h1' h2' hn hl hr
    rw [calculateHeadYaw_eval mathPi pose' n' l' r' h0' h1' h2',
      calculateHeadYaw_eval mathPi pose n l r h0 h1 h2, hn, hl, hr]

/-- Witness for C1: at the concrete pose `yawPose` (nose x = 0, left eye
x = -2, right eye x = 1, so dL = 2 > dR = 1) the yaw equals
`(1 - 1/2) * (π/2) * 1`. -/
theorem yaw_formula_witness :
    calculateHeadYaw piRat yawPose =
      Except.ok (some ((1 - (1 : ℚ) / 2) * (piRat / 2) * 1)) := by
  have h := (yaw_formula_of_nondegenerate piRat yawPose
    { position := { x := 0, y := 0 }, score := 9 / 10 }
    { position := { x := -2, y := 5 }, score := 1 / 10 }
    { position := { x := 1, y := 7 }, score := 0 }
    rfl rfl rfl (by norm_num)).1
  rw [h]
  norm_num

theorem headPitchNum_formula (minC mathPi : K) (e3 e4 : Keypoint K)
    (noseY eye1x eye2x : K)
    (hears : 0 < earsFound minC e3 e4) (hspan : eye1x - eye2x ≠ 0) :
    headPitchNum minC mathPi e3 e4 noseY eye1x eye2x =
      some ((mathPi / 2) *
        (noseY - earYSum minC e3 e4 / ((earsFound minC e3 e4 : ℕ) : K)) /
        (eye1x - eye2x)) := by
  have hc : ((earsFound minC e3 e4 : ℕ) : K) ≠ 0 :=
    Nat.cast_ne_zero.mpr hears.ne'
  unfold headPitchNum
  simp only [jsDiv, if_neg hc, if_neg hspan, Option.some_bind, Option.map_some']
  exact congrArg some (by ring)

/-- C2: For every pose in which at least one ear keypoint reaches
`minPartConfidence` and the eye x coordinates differ, `calculateHeadPitch`
returns `(π/2) * (nose.y - earYAverage) / eyeSpanX`, where `earYAverage`
averages exactly the qualifying ears and `eyeSpanX = leftEye.x - rightEye.x`
is signed; no clamping is applied. -/
theorem pitch_formula_of_ear_and_span (opts : Options K) (mathPi : K)
    (pose : Pose K) (n l r e3 e4 : Keypoint K)
    (h0 : pose.keypoints.get? 0 = some n)
    (h1 : pose.keypoints.get? 1 = some l)
    (h2 : pose.keypoints.get? 2 = some r)
    (h3 : pose.keypoints.get? 3 = some e3)
    (h4 : pose.keypoints.get? 4 = some e4)
    (hqual : opts.posenet.minPartConfidence ≤ e3.score ∨
      opts.posenet.minPartConfidence ≤ e4.score)
    (hspan : l.position.x - r.position.x ≠ 0) :
    calculateHeadPitch opts mathPi pose =
      Except.ok (some ((mathPi / 2) *
        (n.position.y -
          earYSum opts.posenet.minPartConfidence e3 e4 /
            ((earsFound opts.posenet.minPartConfidence e3 e4 : ℕ) : K)) /
        (l.position.x - r.position.x))) := by
  have hears : 0 < earsFound opts.posenet.minPartConfidence e3 e4 := by
    unfold earsFound
    rcases hqual with hq | hq
    · rw [if_pos hq]
      omega
    · rw [if_pos hq]
      omega
  rw [calculateHeadPitch_eval opts mathPi pose n l r e3 e4 h0 h1 h2 h3 h4]
  rw [headPitchNum_formula opts.posenet.minPartConfidence mathPi e3 e4
    n.position.y l.position.x r.position.x hears hspan]

/-- Witness for C2: at `pitchPose` with the default options, only the left
ear (y = 1, score 3/4) qualifies, the eye span is 5 - 1 = 4, and the pitch
is `(π/2) * (3 - 1) / 4`. -/
theorem pitch_formula_witness :
    calculateHeadPitch (configureDefaults : Options ℚ) piRat pitchPose =
      Except.ok (some ((piRat / 2) * ((3 : ℚ) - 1) / 4)) := by
  have h := pitch_formula_of_ear_and_span (configureDefaults : Options ℚ)
    piRat pitchPose
    { position := { x := 2, y := 3 }, score := 1 }
    { position := { x := 5, y := 3 }, score := 1 }
    { position := { x := 1, y := 3 }, score := 1 }
    { position := { x := 6, y := 1 }, score := 3 / 4 }
    { position := { x := 0, y := 2 }, score := 1 / 4 }
    rfl rfl rfl rfl rfl (Or.inl (by norm_num [configureDefaults])) (by norm_num)
  rw [h]
  norm_num [earYSum, earsFound, configureDefaults]

/-- C8: For every pose in which neither ear reaches `minPartConfidence`,
`calculateHeadPitch` does not throw: the `0/0` ear average is `NaN`
(modelled `none`) and propagates silently into the returned pitch. -/
theorem pitch_no_ear_is_nan (opts : Options K) (mathPi : K)
    (pose : Pose K) (n l r e3 e4 : Keypoint K)
    (h0 : pose.keypoints.get? 0 = some n)
    (h1 : pose.keypoints.get? 1 = some l)
    (h2 : pose.keypoints.get? 2 = some r)
    (h3 : pose.keypoints.get? 3 = some e3)
    (h4 : pose.keypoints.get? 4 = some e4)
    (hq3 : e3.score < opts.posenet.minPartConfidence)
    (hq4 : e4.score < opts.posenet.minPartConfidence) :
    calculateHeadPitch opts mathPi pose = Except.ok none := by
  rw [calculateHeadPitch_eval opts mathPi pose n l r e3 e4 h0 h1 h2 h3 h4]
  unfold headPitchNum earsFound
  rw [if_neg (not_le.mpr hq3), if_neg (not_le.mpr hq4)]
  simp [jsDiv]

/-- Witness for C8: at `lowEarPose` with the default options neither ear
qualifies, and the pitch comes back as the undefined value, not an error. -/
theorem pitch_no_ear_witness :
    calculateHeadPitch (configureDefaults : Options ℚ) piRat lowEarPose =
      Except.ok none :=
  pitch_no_ear_is_nan (configureDefaults : Options ℚ) piRat lowEarPose
    { position := { x := 2, y := 3 }, score := 1 }
    { position := { x := 5, y := 3 }, score := 1 }
    { position := { x := 1, y := 3 }, score := 1 }
    { position := { x := 6, y := 1 }, score := 1 / 4 }
    { position := { x := 0, y := 2 }, score := 0 }
    rfl rfl rfl rfl rfl (by norm_num [configureDefaults])
    (by norm_num [configureDefaults])

theorem calculateZPose_eval (windowArea : K) (pose : Pose K)
    (n l r : Keypoint K) (pa : PointedAt K)
    (h0 : pose.keypoints.get? 0 = some n)
    (h1 : pose.keypoints.get? 1 = some l)
    (h2 : pose.keypoints.get? 2 = some r)
    (hpa : pose.pointedAt = some pa) :
    calculateZPose windowArea pose =
      Except.ok { pose with pointedAt := some { pa with
        z := some (jsDiv windowArea
          (shoelaceArea n.position l.position r.position)) } } := by
  simp [calculateZPose, getKp_eq_ok pose 0 n h0, getKp_eq_ok pose 1 l h1,
    getKp_eq_ok pose 2 r h2, hpa, ok_bind, pure_eq_ok]

/-- C3: For every pose, `calculateZ` assigns `z = cachedViewportArea / area`
where `area` is the shoelace area of the nose/left-eye/right-eye triangle;
and for a fixed positive viewport area, of two positive triangle areas the
smaller one yields the strictly greater depth. -/
theorem z_formula_and_antitone (windowArea : K) (pose : Pose K)
    (n l r : Keypoint K) (pa : PointedAt K)
    (h0 : pose.keypoints.get? 0 = some n)
    (h1 : pose.keypoints.get? 1 = some l)
    (h2 : pose.keypoints.get? 2 = some r)
    (hpa : pose.pointedAt = some pa) :
    calculateZPose windowArea pose =
      Except.ok { pose with pointedAt := some { pa with
        z := some (jsDiv windowArea
          (shoelaceArea n.position l.position r.position)) } }
    ∧ shoelaceArea n.position l.position r.position =
        (1 / 2) * |n.position.x * (l.position.y - r.position.y) +
          l.position.x * (r.position.y - n.position.y) +
          r.position.x * (n.position.y - l.position.y)|
    ∧ (∀ a1 a2 : K, 0 < windowArea → 0 < a1 → a1 < a2 →
        jsDiv windowArea a1 = some (windowArea / a1) ∧
        jsDiv windowArea a2 = some (windowArea / a2) ∧
        windowArea / a2 < windowArea / a1) := by
  refine ⟨calculateZPose_eval windowArea pose n l r pa h0 h1 h2 hpa, ?_, ?_⟩
  · unfold shoelaceArea
    exact congrArg (fun t => (1 / 2 : K) * |t|) (by ring)
  · intro a1 a2 hV ha1 h12
    have ha2 : 0 < a2 := ha1.trans h12
    refine ⟨by simp [jsDiv, ha1.ne'], by simp [jsDiv, ha2.ne'], ?_⟩
    rw [div_lt_div_iff₀ ha2 ha1]
    exact mul_lt_mul_of_pos_left h12 hV

/-- Witness for C3: at `zPose` (triangle area 6) with cached viewport area
48, the assigned depth is 48 / 6 = 8. -/
theorem z_formula_witness :
    calculateZPose (48 : ℚ) zPose =
      Except.ok { zPose with
        pointedAt := some { x := some 1, y := some 2, z := some (some 8) } }
      := by
  have h := (z_formula_and_antitone (48 : ℚ) zPose
    { position := { x := 0, y := 0 }, score := 1 }
    { position := { x := 4, y := 0 }, score := 1 }
    { position := { x := 0, y := 3 }, score := 1 }
    { x := some 1, y := some 2 }
    rfl rfl rfl rfl).1
  rw [h]
  norm_num [shoelaceArea, jsDiv]

/-- C10: `configure` initialises the cached viewport area to 0 and only
`setupFeed` assigns the real window area; hence a pose with a positive
facial-triangle area processed by `calculateZ` before `setupFeed` gets
depth 0, not a positive value. -/
theorem z_before_setup_is_zero (pose : Pose K)
    (n l r : Keypoint K) (pa : PointedAt K)
    (h0 : pose.keypoints.get? 0 = some n)
    (h1 : pose.keypoints.get? 1 = some l)
    (h2 : pose.keypoints.get? 2 = some r)
    (hpa : pose.pointedAt = some pa)
    (hpos : 0 < shoelaceArea n.position l.position r.position) :
    (configureCache : WindowCache K).area = 0
    ∧ (∀ env : Env K, setupFeedArea env = env.outerWidth * env.outerHeight)
    ∧ calculateZPose (configureCache : WindowCache K).area pose =
        Except.ok { pose with pointedAt := some { pa with
          z := some (some 0) } } := by
  refine ⟨rfl, fun env => rfl, ?_⟩
  rw [show (configureCache : WindowCache K).area = 0 from rfl]
  rw [calculateZPose_eval 0 pose n l r pa h0 h1 h2 hpa]
  have hz : jsDiv (0 : K) (shoelaceArea n.position l.position r.position) =
      some 0 := by
    simp [jsDiv, hpos.ne']
  rw [hz]

/-- Witness for C10: running `calculateZ` on `zPose` (triangle area 6)
with the freshly configured cache assigns depth 0. -/
theorem z_before_setup_witness :
    calculateZPose (configureCache : WindowCache ℚ).area zPose =
      Except.ok { zPose with
        pointedAt := some { x := some 1, y := some 2, z := some (some 0) } }
      :=
  (z_before_setup_is_zero zPose
    { position := { x := 0, y := 0 }, score := 1 }
    { position := { x := 4, y := 0 }, score := 1 }
    { position := { x := 0, y := 3 }, score := 1 }
    { x := some 1, y := some 2 }
    rfl rfl rfl rfl (by norm_num [shoelaceArea])).2.2

/-- C4: The pre-smoothing pointer coordinate of `calculateXY` is
`x = viewportWidth - noseX * (viewportWidth / captureWidth) + yaw * viewportWidth / 2`
and
`y = noseY * (viewportHeight / captureHeight) + pitch * viewportHeight / 2`
with yaw and pitch the Orientation Estimator outputs for the pose; with
`noseX = 0`, `yaw = 0` and width ratio 1 the raw x equals the viewport
width. -/
theorem xy_raw_formula (env : Env K) (opts : Options K) (mathPi : K)
    (pose : Pose K) (n : Keypoint K) (yv pv : K)
    (h0 : pose.keypoints.get? 0 = some n)
    (hcw : env.canvasWidth ≠ 0) (hch : env.canvasHeight ≠ 0)
    (hyaw : calculateHeadYaw mathPi pose = Except.ok (some yv))
    (hpitch : calculateHeadPitch opts mathPi pose = Except.ok (some pv)) :
    calculateXYRaw env opts mathPi pose = Except.ok
      (some (env.outerWidth - n.position.x * (env.outerWidth / env.canvasWidth)
          + yv * env.outerWidth / 2),
        some (n.position.y * (env.outerHeight / env.canvasHeight)
          + pv * env.outerHeight / 2),
        some yv, some pv)
    ∧ (n.position.x = 0 → yv = 0 → env.outerWidth / env.canvasWidth = 1 →
        env.outerWidth - n.position.x * (env.outerWidth / env.canvasWidth)
          + yv * env.outerWidth / 2 = env.outerWidth) := by
  constructor
  · simp only [calculateXYRaw, getKp_eq_ok pose 0 n h0, hyaw, hpitch, ok_bind,
      pure_eq_ok, xyRawNum, jsDiv, if_neg hcw, if_neg hch, Option.map_some',
      Option.map₂, Option.some_bind, Except.ok.injEq, Prod.mk.injEq,
      Option.some.injEq]
    exact ⟨by ring, by ring_nf⟩
  · intro hx hy _
    rw [hx, hy]
    ring

/-- Witness for C4: the spec's end-to-end scenario.  Viewport 1000 by 800,
capture 600 by 500, nose at the capture centre (300, 250), symmetric eyes
and ears, so yaw = pitch = 0 and the raw point is the viewport centre
(500, 400). -/
theorem xy_raw_witness :
    calculateXYRaw envDemo (configureDefaults : Options ℚ) piRat centredPose =
      Except.ok (some 500, some 400, some 0, some 0) := by
  have hyaw : calculateHeadYaw piRat centredPose = Except.ok (some 0) := by
    rw [calculateHeadYaw_eval piRat centredPose
      { position := { x := 300, y := 250 }, score := 9 / 10 }
      { position := { x := 250, y := 250 }, score := 1 }
      { position := { x := 350, y := 250 }, score := 1 }
      rfl rfl rfl]
    norm_num [headYawNum, jsDiv]
  have hpitch : calculateHeadPitch (configureDefaults : Options ℚ) piRat
      centredPose = Except.ok (some 0) := by
    rw [calculateHeadPitch_eval (configureDefaults : Options ℚ) piRat
      centredPose
      { position := { x := 300, y := 250 }, score := 9 / 10 }
      { position := { x := 250, y := 250 }, score := 1 }
      { position := { x := 350, y := 250 }, score := 1 }
      { position := { x := 200, y := 250 }, score := 1 }
      { position := { x := 400, y := 250 }, score := 1 }
      rfl rfl rfl rfl rfl]
    norm_num [headPitchNum, earYSum, earsFound, jsDiv, configureDefaults]
  have h := (xy_raw_formula envDemo (configureDefaults : Options ℚ) piRat
    centredPose { position := { x := 300, y := 250 }, score := 9 / 10 } 0 0
    rfl (by norm_num [envDemo]) (by norm_num [envDemo]) hyaw hpitch).1
  rw [h]
  norm_num [envDemo]

theorem pushPose_length_le (n : ℕ) (s : List α) (p : α) (h : s.length ≤ n) :
    (pushPose n s p).length ≤ n := by
  unfold pushPose
  by_cases hc : n < (s ++ [p]).length
  · rw [if_pos hc]
    simp only [List.length_tail, List.length_append, List.length_singleton]
    omega
  · rw [if_neg hc]
    simp only [List.length_append, List.length_singleton] at hc ⊢
    omega

theorem foldl_pushPose_length_le (n : ℕ) (xs : List α) :
    ∀ s : List α, s.length ≤ n →
      (List.foldl (pushPose n) s xs).length ≤ n := by
  induction xs with
  | nil => intro s h; simpa using h
  | cons x xs ih => intro s h; exact ih _ (pushPose_length_le n s x h)

theorem foldl_pushPose_drop (n : ℕ) (xs : List α) :
    ∀ s : List α, s.length ≤ n →
      List.foldl (pushPose n) s xs =
        (s ++ xs).drop (s.length + xs.length - n) := by
  induction xs with
  | nil =>
    intro s h
    simp [Nat.sub_eq_zero_of_le h]
  | cons x xs ih =>
    intro s h
    rw [List.foldl_cons]
    have hspx : (s ++ [x]).length = s.length + 1 := by
      simp
    by_cases hc : s.length + 1 ≤ n
    · have hlen1 : (s ++ [x]).length ≤ n := by omega
      have hps : pushPose n s x = s ++ [x] := by
        unfold pushPose
        rw [if_neg (not_lt.mpr hlen1)]
      rw [hps, ih (s ++ [x]) hlen1]
      have hl : (s ++ [x]) ++ xs = s ++ x :: xs := by simp
      rw [hspx, hl]
      congr 1
      simp only [List.length_cons]
      omega
    · have hsn : s.length = n := by omega
      have hlt : n < (s ++ [x]).length := by omega
      have hps : pushPose n s x = (s ++ [x]).drop 1 := by
        unfold pushPose
        rw [if_pos hlt]
        exact (List.drop_one _).symm
      have h1 : ((s ++ [x]).drop 1).length = s.length := by
        simp only [List.length_drop]
        omega
      have hdlen : ((s ++ [x]).drop 1).length ≤ n := by omega
      rw [hps, ih ((s ++ [x]).drop 1) hdlen]
      rw [h1]
      rw [← List.drop_append_of_le_length
        (show 1 ≤ (s ++ [x]).length by simp)]
      rw [List.drop_drop]
      have hl2 : (s ++ [x]) ++ xs = s ++ x :: xs := by simp
      rw [hl2]
      congr 1
      simp only [List.length_cons]
      omega

/-- C5: Starting from an empty smoothing buffer with capacity
`poseStackSize ≥ 1`, pushing `poseStackSize + k` samples (k > 0) leaves
exactly the most recent `poseStackSize` samples in arrival order (the first
k evicted oldest-first), and the buffer length never exceeds the capacity
after any push. -/
theorem pose_stack_bounded_fifo (n k : ℕ) (xs : List α)
    (hn : 1 ≤ n) (hk : 0 < k) (hlen : xs.length = n + k) :
    List.foldl (pushPose n) [] xs = xs.drop k
    ∧ ∀ i : ℕ, (List.foldl (pushPose n) [] (xs.take i)).length ≤ n := by
  constructor
  · rw [foldl_pushPose_drop n xs [] (by simp)]
    simp only [List.nil_append, List.length_nil, Nat.zero_add]
    congr 1
    omega
  · intro i
    exact foldl_pushPose_length_le n (xs.take i) [] (by simp)

/-- Witness for C5: capacity 2, three pushes; the buffer holds the last
two samples. -/
theorem pose_stack_witness :
    List.foldl (pushPose 2) ([] : List ℕ) [10, 20, 30] = [20, 30] :=
  (pose_stack_bounded_fifo 2 1 [10, 20, 30] (by norm_num) (by norm_num)
    rfl).1

theorem averagePoseStack_fold_lift (l : List (K × K)) (a b : K) :
    List.foldl (fun acc p => (jsAdd acc.1 p.1, jsAdd acc.2 p.2))
      ((some a, some b) : OptPoint K) (l.map fun q => (some q.1, some q.2)) =
    (some (a + (l.map Prod.fst).sum), some (b + (l.map Prod.snd).sum)) := by
  induction l generalizing a b with
  | nil => simp
  | cons q l ih =>
    simp only [List.map_cons, List.foldl_cons]
    rw [show jsAdd (some a) (some q.1) = some (a + q.1) from rfl,
      show jsAdd (some b) (some q.2) = some (b + q.2) from rfl]
    rw [ih]
    simp [add_assoc]

/-- C6: For every non-empty smoothing buffer of finite samples,
`averagePoseStack` returns the unweighted arithmetic mean of the x values
and, independently, of the y values; a buffer holding exactly one sample
averages to exactly that sample. -/
theorem average_pose_stack_mean (l : List (K × K)) (p : K × K) (hl : l ≠ []) :
    averagePoseStack (l.map fun q => (some q.1, some q.2)) =
      (some ((l.map Prod.fst).sum / ((l.length : ℕ) : K)),
        some ((l.map Prod.snd).sum / ((l.length : ℕ) : K)))
    ∧ averagePoseStack [((some p.1, some p.2) : OptPoint K)] =
        (some p.1, some p.2) := by
  constructor
  · unfold averagePoseStack
    rw [averagePoseStack_fold_lift l 0 0]
    have hne : ((l.length : ℕ) : K) ≠ 0 :=
      Nat.cast_ne_zero.mpr (List.length_pos.mpr hl).ne'
    simp [jsDiv, hne]
  · unfold averagePoseStack
    simp [jsAdd, jsDiv, Option.map₂]

/-- Witness for C6: the buffer [(1,2), (3,4)] averages to (2, 3). -/
theorem average_pose_stack_witness :
    averagePoseStack ([(some 1, some 2), (some 3, some 4)] :
        List (OptPoint ℚ)) = (some 2, some 3) := by
  have h := (average_pose_stack_mean ([(1, 2), (3, 4)] : List (ℚ × ℚ))
    (5, 6) (by simp)).1
  simp only [List.map_cons, List.map_nil, List.sum_cons, List.sum_nil,
    List.length_cons, List.length_nil] at h
  norm_num at h
  exact h

theorem count_pluginCall_map (l : List String) (name : String) :
    (l.map Dispatch.pluginCall).count (Dispatch.pluginCall name) =
      l.count name := by
  induction l with
  | nil => rfl
  | cons s l ih =>
    simp only [List.map_cons, List.count_cons, ih]
    congr 1
    by_cases h : name = s
    · simp [h]
    · simp [h, fun hc => h (Dispatch.pluginCall.inj hc)]

theorem count_event_map_pluginCall (l : List String) :
    (l.map Dispatch.pluginCall).count Dispatch.event = 0 := by
  rw [List.count_eq_zero]
  simp

/-- C7 counterexample: with poses present and no plugins registered, one
frame iteration dispatches the `posenetPointerUpdated` event twice — once
from inside `runCalculations` and once from `trackPosesLoop` itself — so
the enrichment result is not handed off exactly once. -/
theorem frame_dispatch_not_once :
    (trackPosesLoopDispatches true []).count Dispatch.event = 2
    ∧ (trackPosesLoopDispatches true []).count Dispatch.event ≠ 1 := by
  decide

/-- C7 (amended): in every frame iteration with poses present, each
registered plugin callback is invoked exactly as often as it occurs in the
registry (once for a registry of distinct names), while the
`posenetPointerUpdated` event is dispatched exactly twice per frame. -/
theorem frame_dispatch_counts (plugins : List String) (name : String) :
    (trackPosesLoopDispatches true plugins).count Dispatch.event = 2
    ∧ (trackPosesLoopDispatches true plugins).count
        (Dispatch.pluginCall name) = plugins.count name := by
  unfold trackPosesLoopDispatches runCalculationsTrace emitEventsTrace
    runPluginsTrace
  rw [if_pos rfl]
  constructor
  · rw [List.count_append, List.count_append, count_event_map_pluginCall]
    rfl
  · rw [List.count_append, List.count_append, count_pluginCall_map]
    simp [List.count_cons]

theorem calculateXYRaw_eval (env : Env K) (opts : Options K) (mathPi : K)
    (pose : Pose K) (k0 k1 k2 k3 k4 : Keypoint K)
    (h0 : pose.keypoints.get? 0 = some k0)
    (h1 : pose.keypoints.get? 1 = some k1)
    (h2 : pose.keypoints.get? 2 = some k2)
    (h3 : pose.keypoints.get? 3 = some k3)
    (h4 : pose.keypoints.get? 4 = some k4) :
    calculateXYRaw env opts mathPi pose = Except.ok
      ((xyRawNum env k0.position.x k0.position.y
          (headYawNum mathPi k0.position.x k1.position.x k2.position.x)
          (headPitchNum opts.posenet.minPartConfidence mathPi k3 k4
            k0.position.y k1.position.x k2.position.x)).1,
        (xyRawNum env k0.position.x k0.position.y
          (headYawNum mathPi k0.position.x k1.position.x k2.position.x)
          (headPitchNum opts.posenet.minPartConfidence mathPi k3 k4
            k0.position.y k1.position.x k2.position.x)).2,
        headYawNum mathPi k0.position.x k1.position.x k2.position.x,
        headPitchNum opts.posenet.minPartConfidence mathPi k3 k4
          k0.position.y k1.position.x k2.position.x) := by
  simp only [calculateXYRaw, getKp_eq_ok pose 0 k0 h0,
    calculateHeadYaw_eval mathPi pose k0 k1 k2 h0 h1 h2,
    calculateHeadPitch_eval opts mathPi pose k0 k1 k2 k3 k4 h0 h1 h2 h3 h4,
    ok_bind, pure_eq_ok]

theorem calculateXYPose_eval (env : Env K) (opts : Options K) (mathPi : K)
    (stack : List (OptPoint K)) (pose : Pose K) (k0 k1 k2 k3 k4 : Keypoint K)
    (h0 : pose.keypoints.get? 0 = some k0)
    (h1 : pose.keypoints.get? 1 = some k1)
    (h2 : pose.keypoints.get? 2 = some k2)
    (h3 : pose.keypoints.get? 3 = some k3)
    (h4 : pose.keypoints.get? 4 = some k4) :
    calculateXYPose env opts mathPi stack pose = Except.ok
      ({ pose with
          pointedAt := some
            { x := (averagePoseStack (pushPose opts.poseStackSize stack
                (xyRawNum env k0.position.x k0.position.y
                  (headYawNum mathPi k0.position.x k1.position.x k2.position.x)
                  (headPitchNum opts.posenet.minPartConfidence mathPi k3 k4
                    k0.position.y k1.position.x k2.position.x)))).1,
              y := (averagePoseStack (pushPose opts.poseStackSize stack
                (xyRawNum env k0.position.x k0.position.y
                  (headYawNum mathPi k0.position.x k1.position.x k2.position.x)
                  (headPitchNum opts.posenet.minPartConfidence mathPi k3 k4
                    k0.position.y k1.position.x k2.position.x)))).2 },
          angles := some
            { yaw := headYawNum mathPi k0.position.x k1.position.x
                k2.position.x,
              pitch := headPitchNum opts.posenet.minPartConfidence mathPi
                k3 k4 k0.position.y k1.position.x k2.position.x } },
        pushPose opts.poseStackSize stack
          (xyRawNum env k0.position.x k0.position.y
            (headYawNum mathPi k0.position.x k1.position.x k2.position.x)
            (headPitchNum opts.posenet.minPartConfidence mathPi k3 k4
              k0.position.y k1.position.x k2.position.x))) := by
  simp only [calculateXYPose,
    calculateXYRaw_eval env opts mathPi pose k0 k1 k2 k3 k4 h0 h1 h2 h3 h4,
    ok_bind, pure_eq_ok]

theorem calculateXYPose_isOk (env : Env K) (opts : Options K) (mathPi : K)
    (stack : List (OptPoint K)) (pose : Pose K)
    (h5 : 5 ≤ pose.keypoints.length) :
    ∃ pr : Pose K × List (OptPoint K),
      calculateXYPose env opts mathPi stack pose = Except.ok pr
      ∧ pr.1.pointedAt ≠ none := by
  obtain ⟨k0, h0⟩ : ∃ k, pose.keypoints.get? 0 = some k :=
    ⟨pose.keypoints.get ⟨0, by omega⟩, List.get?_eq_get (by omega)⟩
  obtain ⟨k1, h1⟩ : ∃ k, pose.keypoints.get? 1 = some k :=
    ⟨pose.keypoints.get ⟨1, by omega⟩, List.get?_eq_get (by omega)⟩
  obtain ⟨k2, h2⟩ : ∃ k, pose.keypoints.get? 2 = some k :=
    ⟨pose.keypoints.get ⟨2, by omega⟩, List.get?_eq_get (by omega)⟩
  obtain ⟨k3, h3⟩ : ∃ k, pose.keypoints.get? 3 = some k :=
    ⟨pose.keypoints.get ⟨3, by omega⟩, List.get?_eq_get (by omega)⟩
  obtain ⟨k4, h4⟩ : ∃ k, pose.keypoints.get? 4 = some k :=
    ⟨pose.keypoints.get ⟨4, by omega⟩, List.get?_eq_get (by omega)⟩
  exact ⟨_, calculateXYPose_eval env opts mathPi stack pose k0 k1 k2 k3 k4
    h0 h1 h2 h3 h4, by simp⟩

theorem calculateXYPose_error (env : Env K) (opts : Options K) (mathPi : K)
    (stack : List (OptPoint K)) (pose : Pose K)
    (h5 : pose.keypoints.length < 5) :
    calculateXYPose env opts mathPi stack pose = Except.error () := by
  rcases h0 : pose.keypoints.get? 0 with _ | k0
  · simp [calculateXYPose, calculateXYRaw, getKp_eq_error pose 0 h0,
      error_bind]
  rcases h1 : pose.keypoints.get? 1 with _ | k1
  · simp [calculateXYPose, calculateXYRaw, calculateHeadYaw,
      getKp_eq_ok pose 0 k0 h0, getKp_eq_error pose 1 h1, ok_bind, error_bind]
  rcases h2 : pose.keypoints.get? 2 with _ | k2
  · simp [calculateXYPose, calculateXYRaw, calculateHeadYaw,
      getKp_eq_ok pose 0 k0 h0, getKp_eq_ok pose 1 k1 h1,
      getKp_eq_error pose 2 h2, ok_bind, error_bind]
  rcases h3 : pose.keypoints.get? 3 with _ | k3
  · simp [calculateXYPose, calculateXYRaw, calculateHeadYaw,
      calculateHeadPitch, getKp_eq_ok pose 0 k0 h0, getKp_eq_ok pose 1 k1 h1,
      getKp_eq_ok pose 2 k2 h2, getKp_eq_error pose 3 h3, ok_bind, error_bind,
      pure_eq_ok]
  have h4 : pose.keypoints.get? 4 = none := List.get?_eq_none.mpr (by omega)
  simp [calculateXYPose, calculateXYRaw, calculateHeadYaw,
    calculateHeadPitch, getKp_eq_ok pose 0 k0 h0, getKp_eq_ok pose 1 k1 h1,
    getKp_eq_ok pose 2 k2 h2, getKp_eq_ok pose 3 k3 h3,
    getKp_eq_error pose 4 h4, ok_bind, error_bind, pure_eq_ok]

theorem calculateXYList_nil (env : Env K) (opts : Options K) (mathPi : K)
    (index : ℕ) (poseStacks : ℕ → List (OptPoint K)) :
    calculateXYList env opts mathPi index poseStacks [] =
      ([], poseStacks) := rfl

theorem calculateXYList_cons_error (env : Env K) (opts : Options K)
    (mathPi : K) (index : ℕ) (poseStacks : ℕ → List (OptPoint K))
    (pose : Pose K) (rest : List (Pose K))
    (herr : calculateXYPose env opts mathPi (poseStacks index) pose =
      Except.error ()) :
    calculateXYList env opts mathPi index poseStacks (pose :: rest) =
      (pose :: rest, poseStacks) := by
  simp only [calculateXYList]
  rw [herr]

theorem calculateXYList_cons_ok (env : Env K) (opts : Options K)
    (mathPi : K) (index : ℕ) (poseStacks : ℕ → List (OptPoint K))
    (pose : Pose K) (rest : List (Pose K)) (pr : Pose K × List (OptPoint K))
    (hok : calculateXYPose env opts mathPi (poseStacks index) pose =
      Except.ok pr) :
    calculateXYList env opts mathPi index poseStacks (pose :: rest) =
      ((pr.1 :: (calculateXYList env opts mathPi (index + 1)
          (fun j => if j = index then pr.2 else poseStacks j) rest).1),
        (calculateXYList env opts mathPi (index + 1)
          (fun j => if j = index then pr.2 else poseStacks j) rest).2) := by
  obtain ⟨p1, st1⟩ := pr
  simp only [calculateXYList]
  rw [hok]

/-- C9 (amended): within one `calculateXY` pass, the first malformed pose
(missing keypoints) throws, so the well-formed poses before it are all
enriched, but the malformed pose and every pose after it are returned
untouched — the batch is aborted, not skipped over. -/
theorem xy_batch_prefix_abort (env : Env K) (opts : Options K) (mathPi : K)
    (index : ℕ) (poseStacks : ℕ → List (OptPoint K))
    (pre : List (Pose K)) (bad : Pose K) (post : List (Pose K))
    (hpre : ∀ q ∈ pre, 5 ≤ q.keypoints.length)
    (hbad : bad.keypoints.length < 5) :
    (calculateXYList env opts mathPi index poseStacks
        (pre ++ bad :: post)).1 =
      (calculateXYList env opts mathPi index poseStacks pre).1 ++ bad :: post
    ∧ (calculateXYList env opts mathPi index poseStacks pre).1.length =
        pre.length
    ∧ ∀ q ∈ (calculateXYList env opts mathPi index poseStacks pre).1,
        q.pointedAt ≠ none := by
  induction pre generalizing index poseStacks with
  | nil =>
    refine ⟨?_, rfl, by simp [calculateXYList_nil]⟩
    rw [List.nil_append, calculateXYList_nil,
      calculateXYList_cons_error env opts mathPi index poseStacks bad post
        (calculateXYPose_error env opts mathPi (poseStacks index) bad hbad)]
    rfl
  | cons p pre ih =>
    have hp : 5 ≤ p.keypoints.length := hpre p (List.mem_cons_self p pre)
    obtain ⟨pr, heq, hne⟩ :=
      calculateXYPose_isOk env opts mathPi (poseStacks index) p hp
    have hpre2 : ∀ q ∈ pre, 5 ≤ q.keypoints.length :=
      fun q hq => hpre q (List.mem_cons_of_mem p hq)
    obtain ⟨ih1, ih2, ih3⟩ := ih (index + 1)
      (fun j => if j = index then pr.2 else poseStacks j) hpre2
    rw [List.cons_append,
      calculateXYList_cons_ok env opts mathPi index poseStacks p
        (pre ++ bad :: post) pr heq,
      calculateXYList_cons_ok env opts mathPi index poseStacks p pre pr heq]
    refine ⟨?_, ?_, ?_⟩
    · simp only [ih1, List.cons_append]
    · simp only [List.length_cons, ih2]
    · intro q hq
      rcases List.mem_cons.mp hq with hq | hq
      · rw [hq]
        exact hne
      · exact ih3 q hq

/-- Witness for C9's amended claim: with one well-formed pose followed by
the malformed `badPose`, the pass enriches the first pose and returns the
malformed one unchanged. -/
theorem xy_batch_prefix_abort_witness :
    (calculateXYList envDemo (configureDefaults : Options ℚ) piRat 0
        (fun _ => []) [centredPose, badPose]).1 =
      (calculateXYList envDemo (configureDefaults : Options ℚ) piRat 0
        (fun _ => []) [centredPose]).1 ++ badPose :: [] :=
  (xy_batch_prefix_abort envDemo (configureDefaults : Options ℚ) piRat 0
    (fun _ => []) [centredPose] badPose []
    (by intro q hq; rw [List.mem_singleton] at hq; rw [hq]; decide)
    (by decide)).1

/-- C9 counterexample: in the frame sequence `[badPose, centredPose]` the
only malformed pose sits at index 0, yet the pose at index 1 is returned
without enrichment (its `pointedAt` stays absent): the thrown `TypeError`
aborts the whole batch. -/
theorem xy_batch_abort_cex :
    (calculateXYList envDemo (configureDefaults : Options ℚ) piRat 0
        (fun _ => []) [badPose, centredPose]).1 = [badPose, centredPose]
    ∧ (centredPose : Pose ℚ).pointedAt = none := by
  constructor
  · rw [calculateXYList_cons_error envDemo (configureDefaults : Options ℚ)
      piRat 0 (fun _ => []) badPose [centredPose]
      (calculateXYPose_error envDemo (configureDefaults : Options ℚ) piRat []
        badPose (by decide))]
  · rfl

end PosenetPointer
